import Mathlib

/-!
Verification of Goldleaf's configuration resolution and persistence component
(`source/cfg/cfg_Settings.cpp`, `include/ui/ui_Utils.hpp`), shallowly embedded
in Lean 4.  Strings are modelled as `List Char`; the JSON settings document is
modelled as a record of optional sections, one field per key the code actually
reads or writes, where for string-valued keys the empty list also stands for an
absent key (the code reads them with `.value(key, "")` and immediately tests
emptiness, so absent and present-but-empty are indistinguishable).
-/

namespace Goldleaf

/-- Strings of the C++ code, modelled as character lists. -/
abbrev Str := List Char

/-- Embeds `pu::ui::Color`: four 8-bit channels.  Channels are modelled as `Nat`;
every value produced by the code is below 256. -/
structure Color where
  r : Nat
  g : Nat
  b : Nat
  a : Nat
  deriving DecidableEq, Repr

/-- The `ColorScheme` of the UI collaborator: the four scheme colors used by
`cfg_Settings.cpp` (`bg`, `base`, `base_focus`, `text`). -/
structure ColorScheme where
  bg : Color
  base : Color
  base_focus : Color
  text : Color
  deriving DecidableEq, Repr

/-- Modelled from the spec: the application's language identifier
(`cfg::Language`, declared outside the given fragment); the spec treats it as
an opaque "language identifier" with a string language code.  A handful of
constructors suffices for the claims. -/
inductive Language where
  | English
  | Spanish
  | German
  | French
  | Italian
  deriving DecidableEq, Repr

/-- Modelled from the spec: `GetLanguageCode` (declared outside the given
fragment) maps a language identifier to its string language code. -/
def GetLanguageCode : Language → Str
  | Language.English => ['e', 'n']
  | Language.Spanish => ['e', 's']
  | Language.German => ['d', 'e']
  | Language.French => ['f', 'r']
  | Language.Italian => ['i', 't']

/-- Modelled from the spec: `GetLanguageByCode` (declared outside the given
fragment), the inverse mapping from codes to language identifiers. -/
def GetLanguageByCode (code : Str) : Language :=
  if code = GetLanguageCode Language.Spanish then Language.Spanish
  else if code = GetLanguageCode Language.German then Language.German
  else if code = GetLanguageCode Language.French then Language.French
  else if code = GetLanguageCode Language.Italian then Language.Italian
  else Language.English

/-- A `WebBookmark`: a `(name, url)` pair. -/
structure WebBookmark where
  name : Str
  url : Str
  deriving DecidableEq, Repr

/-- The `cfg::Settings` record: the central configuration record, fields as used by
`cfg_Settings.cpp`. -/
structure Settings where
  has_custom_lang : Bool
  custom_lang : Language
  has_external_romfs : Bool
  external_romfs : Str
  use_12h_time : Bool
  ignore_hidden_files : Bool
  has_custom_scheme : Bool
  custom_scheme : ColorScheme
  menu_item_size : Nat
  has_scrollbar_color : Bool
  scrollbar_color : Color
  has_progressbar_color : Bool
  progressbar_color : Color
  ignore_required_fw_ver : Bool
  show_deletion_prompt_after_install : Bool
  copy_buffer_max_size : Nat
  decrypt_buffer_max_size : Nat
  bookmarks : List WebBookmark
  deriving DecidableEq, Repr

/-- The `general` section of the settings document.  String keys collapse
"absent" and "empty" into `[]`. -/
structure GeneralSection where
  customLanguage : Str
  externalRomFs : Str
  use12hTime : Option Bool
  ignoreHiddenFiles : Option Bool
  deriving DecidableEq, Repr

/-- The `ui` section of the settings document. -/
structure UiSection where
  background : Str
  base : Str
  baseFocus : Str
  text : Str
  menuItemSize : Option Nat
  scrollBar : Str
  progressBar : Str
  deriving DecidableEq, Repr

/-- The `installs` section of the settings document.  It carries a
`decryptBufferMaxSize` slot because `ProcessSettings` (line 224) reads that
key from this section. -/
structure InstallsSection where
  ignoreRequiredFwVersion : Option Bool
  showDeletionPromptAfterInstall : Option Bool
  copyBufferMaxSize : Option Nat
  decryptBufferMaxSize : Option Nat
  deriving DecidableEq, Repr

/-- The `export` section of the settings document (`export` is a Lean
keyword, hence the name). -/
structure ExportSection where
  decryptBufferMaxSize : Option Nat
  deriving DecidableEq, Repr

/-- The `web` section of the settings document. -/
structure WebSection where
  bookmarks : Option (List WebBookmark)
  deriving DecidableEq, Repr

/-- The settings document: five optional top-level sections. -/
structure Doc where
  general : Option GeneralSection
  ui : Option UiSection
  installs : Option InstallsSection
  exportSec : Option ExportSection
  web : Option WebSection
  deriving DecidableEq, Repr

/-- A document with every section absent: what reading a missing settings
file yields (`count` is 0 for every section). -/
def EmptyDoc : Doc :=
  { general := none, ui := none, installs := none, exportSec := none, web := none }

/-- A hexadecimal digit character, uppercase, as produced by `%02X`. -/
def hexDigit (n : Nat) : Char :=
  if n < 10 then Char.ofNat ('0'.toNat + n) else Char.ofNat ('A'.toNat + (n - 10))

/-- Two uppercase hex digits of one byte, as produced by `%02X`. -/
def byteToHex (n : Nat) : Str :=
  [hexDigit (n / 16 % 16), hexDigit (n % 16)]

/-- Embeds `ColorToHex` (cfg_Settings.cpp lines 30-34): formats a color as
`#RRGGBBAA`, two uppercase hex digits per channel. -/
def ColorToHex (clr : Color) : Str :=
  '#' :: (byteToHex clr.r ++ byteToHex clr.g ++ byteToHex clr.b ++ byteToHex clr.a)

/-- Value of one hex digit character (either case); 0 on anything else. -/
def hexVal (c : Char) : Nat :=
  if '0' ≤ c ∧ c ≤ '9' then c.toNat - '0'.toNat
  else if 'A' ≤ c ∧ c ≤ 'F' then c.toNat - 'A'.toNat + 10
  else if 'a' ≤ c ∧ c ≤ 'f' then c.toNat - 'a'.toNat + 10
  else 0

/-- Modelled from the spec: `pu::ui::Color::FromHex` is supplied by the UI
collaborator (spec §4.1 `Decode`), the inverse of `Encode`: it decodes an
8-hex-digit `#RRGGBBAA` string into the four channels. -/
def FromHex (s : Str) : Color :=
  match s with
  | '#' :: r1 :: r2 :: g1 :: g2 :: b1 :: b2 :: a1 :: a2 :: [] =>
    { r := hexVal r1 * 16 + hexVal r2
      g := hexVal g1 * 16 + hexVal g2
      b := hexVal b1 * 16 + hexVal b2
      a := hexVal a1 * 16 + hexVal a2 }
  | _ => { r := 0, g := 0, b := 0, a := 255 }

/-- The `"sdmc:/"` external storage root used by the normalization at
cfg_Settings.cpp lines 169-178. -/
def sdmcRoot : Str := ['s', 'd', 'm', 'c', ':', '/']

/-- The `"sdmc:"` scheme text prepended at cfg_Settings.cpp line 173. -/
def sdmcScheme : Str := ['s', 'd', 'm', 'c', ':']

/-- The `externalRomFs` normalization of `ProcessSettings`
(cfg_Settings.cpp lines 169-178), applied to a non-empty value: keep values
whose first six characters are `"sdmc:/"`, otherwise prepend `"sdmc:"` plus a
`"/"` separator when the value does not start with `'/'`. -/
def normalizeExtRomFs (s : Str) : Str :=
  if s.take 6 = sdmcRoot then s
  else if s.head? = some '/' then sdmcScheme ++ s
  else sdmcScheme ++ '/' :: s

/-- The struct zero-initialization and explicit defaults of `ProcessSettings`
(cfg_Settings.cpp lines 136-152), before the random scheme is assigned. -/
def DefaultSettings : Settings :=
  { has_custom_lang := false
    custom_lang := Language.English
    has_external_romfs := false
    external_romfs := []
    use_12h_time := false
    ignore_hidden_files := false
    has_custom_scheme := false
    custom_scheme := { bg := ⟨0, 0, 0, 0⟩, base := ⟨0, 0, 0, 0⟩,
                       base_focus := ⟨0, 0, 0, 0⟩, text := ⟨0, 0, 0, 0⟩ }
    menu_item_size := 80
    has_scrollbar_color := false
    scrollbar_color := ⟨0, 0, 0, 0⟩
    has_progressbar_color := false
    progressbar_color := ⟨0, 0, 0, 0⟩
    ignore_required_fw_ver := true
    show_deletion_prompt_after_install := false
    copy_buffer_max_size := 4 * 1024 * 1024
    decrypt_buffer_max_size := 16 * 1024 * 1024
    bookmarks := [] }

/-- The `general` block of `ProcessSettings` (cfg_Settings.cpp lines
158-183). -/
def applyGeneral (g : GeneralSection) (s0 : Settings) : Settings :=
  let s1 := if g.customLanguage = [] then s0
    else { s0 with has_custom_lang := true,
                   custom_lang := GetLanguageByCode g.customLanguage }
  let s2 := if g.externalRomFs = [] then s1
    else { s1 with has_external_romfs := true,
                   external_romfs := normalizeExtRomFs g.externalRomFs }
  { s2 with use_12h_time := g.use12hTime.getD s2.use_12h_time,
            ignore_hidden_files := g.ignoreHiddenFiles.getD s2.ignore_hidden_files }

/-- The `ui` block of `ProcessSettings` (cfg_Settings.cpp lines 185-217). -/
def applyUi (u : UiSection) (s0 : Settings) : Settings :=
  let s1 := if u.background = [] then s0
    else { s0 with has_custom_scheme := true,
                   custom_scheme := { s0.custom_scheme with bg := FromHex u.background } }
  let s2 := if u.base = [] then s1
    else { s1 with has_custom_scheme := true,
                   custom_scheme := { s1.custom_scheme with base := FromHex u.base } }
  let s3 := if u.baseFocus = [] then s2
    else { s2 with has_custom_scheme := true,
                   custom_scheme := { s2.custom_scheme with base_focus := FromHex u.baseFocus } }
  let s4 := if u.text = [] then s3
    else { s3 with has_custom_scheme := true,
                   custom_scheme := { s3.custom_scheme with text := FromHex u.text } }
  let s5 := { s4 with menu_item_size := u.menuItemSize.getD s4.menu_item_size }
  let s6 := if u.scrollBar = [] then s5
    else { s5 with has_scrollbar_color := true, scrollbar_color := FromHex u.scrollBar }
  if u.progressBar = [] then s6
  else { s6 with has_progressbar_color := true, progressbar_color := FromHex u.progressBar }

/-- The `installs` block of `ProcessSettings` (cfg_Settings.cpp lines
218-222). -/
def applyInstalls (i : InstallsSection) (s : Settings) : Settings :=
  { s with
    ignore_required_fw_ver := i.ignoreRequiredFwVersion.getD s.ignore_required_fw_ver,
    show_deletion_prompt_after_install :=
      i.showDeletionPromptAfterInstall.getD s.show_deletion_prompt_after_install,
    copy_buffer_max_size := i.copyBufferMaxSize.getD s.copy_buffer_max_size }

/-- The `export` block of `ProcessSettings` (cfg_Settings.cpp lines 223-225):
guarded by the presence of the `export` section, yet it reads
`decryptBufferMaxSize` from `settings_json["installs"]`.  When the `installs`
section is absent, the program performs nlohmann's const `operator[]` on a
missing key — an assertion failure / undefined behavior, not a defaulted
read; `applyExportChecked` models that error path faithfully.  This total
variant keeps the current value in that branch; it is only a convenience for
stating facts about runs in which the block completes, and it agrees with
the checked model whenever the checked model succeeds
(`ProcessSettingsChecked_sound`). -/
def applyExport (installs : Option InstallsSection) (s : Settings) : Settings :=
  match installs with
  | some i =>
    { s with decrypt_buffer_max_size := i.decryptBufferMaxSize.getD s.decrypt_buffer_max_size }
  | none => s

/-- The `export` block of `ProcessSettings` (cfg_Settings.cpp lines 223-225),
faithfully: with the `installs` section present, `decryptBufferMaxSize` is
read from it with the current value as default; with `installs` absent, the
const `operator[]` on the missing key is an assertion failure / undefined
behavior, modelled as `none` (no settings value results). -/
def applyExportChecked (installs : Option InstallsSection) (s : Settings) : Option Settings :=
  match installs with
  | some i =>
    some { s with
           decrypt_buffer_max_size := i.decryptBufferMaxSize.getD s.decrypt_buffer_max_size }
  | none => none

/-- The `web` block of `ProcessSettings` (cfg_Settings.cpp lines 226-238):
entries with an empty url or an empty name are skipped, the rest are appended
in array order. -/
def applyWeb (w : WebSection) (s : Settings) : Settings :=
  match w.bookmarks with
  | some bmks =>
    { s with bookmarks :=
        s.bookmarks ++ bmks.filter (fun bmk => !bmk.url.isEmpty && !bmk.name.isEmpty) }
  | none => s

/-- Embeds `ProcessSettings` (cfg_Settings.cpp lines 135-240).  The random scheme of
`ui::GenerateRandomScheme()` enters as the `scheme` argument; the document
read from disk enters as `file` (`none` = missing file, which reads as an
empty document). -/
def ProcessSettings (scheme : ColorScheme) (file : Option Doc) : Settings :=
  let settings := { DefaultSettings with custom_scheme := scheme }
  let j := file.getD EmptyDoc
  let s1 := match j.general with
    | some g => applyGeneral g settings
    | none => settings
  let s2 := match j.ui with
    | some u => applyUi u s1
    | none => s1
  let s3 := match j.installs with
    | some i => applyInstalls i s2
    | none => s2
  let s4 := match j.exportSec with
    | some _ => applyExport j.installs s3
    | none => s3
  match j.web with
  | some w => applyWeb w s4
  | none => s4

/-- Embeds `ProcessSettings` (cfg_Settings.cpp lines 135-240) with the
`export` block's error path kept: identical to `ProcessSettings` except
that the `export` block runs `applyExportChecked`, so a document with an
`export` section but no `installs` section produces `none` (the program
asserts / is undefined there) instead of a settings value. -/
def ProcessSettingsChecked (scheme : ColorScheme) (file : Option Doc) : Option Settings :=
  let settings := { DefaultSettings with custom_scheme := scheme }
  let j := file.getD EmptyDoc
  let s1 := match j.general with
    | some g => applyGeneral g settings
    | none => settings
  let s2 := match j.ui with
    | some u => applyUi u s1
    | none => s1
  let s3 := match j.installs with
    | some i => applyInstalls i s2
    | none => s2
  let s4q := match j.exportSec with
    | some _ => applyExportChecked j.installs s3
    | none => some s3
  s4q.map fun s4 =>
    match j.web with
    | some w => applyWeb w s4
    | none => s4

/-- Embeds `Settings::Save` (cfg_Settings.cpp lines 54-95), as the document it
writes: optional fields are emitted only when their `has_*` flag is true, the
`web` section exists only when the bookmark loop ran at least once, and
`decryptBufferMaxSize` is written under `export` (and only there). -/
def Save (s : Settings) : Doc :=
  { general := some
      { customLanguage := if s.has_custom_lang then GetLanguageCode s.custom_lang else []
        externalRomFs := if s.has_external_romfs then s.external_romfs else []
        use12hTime := some s.use_12h_time
        ignoreHiddenFiles := some s.ignore_hidden_files }
    ui := some
      { background := if s.has_custom_scheme then ColorToHex s.custom_scheme.bg else []
        base := if s.has_custom_scheme then ColorToHex s.custom_scheme.base else []
        baseFocus := if s.has_custom_scheme then ColorToHex s.custom_scheme.base_focus else []
        text := if s.has_custom_scheme then ColorToHex s.custom_scheme.text else []
        menuItemSize := some s.menu_item_size
        scrollBar := if s.has_scrollbar_color then ColorToHex s.scrollbar_color else []
        progressBar := if s.has_progressbar_color then ColorToHex s.progressbar_color else [] }
    installs := some
      { ignoreRequiredFwVersion := some s.ignore_required_fw_ver
        showDeletionPromptAfterInstall := some s.show_deletion_prompt_after_install
        copyBufferMaxSize := some s.copy_buffer_max_size
        decryptBufferMaxSize := none }
    exportSec := some { decryptBufferMaxSize := some s.decrypt_buffer_max_size }
    web := if s.bookmarks.isEmpty then none
      else some { bookmarks := some s.bookmarks } }

/-- The storage adapters `PathForResource` consults: the SD-card explorer's
regular-file check and the RomFs explorer's absolute-path resolution, as an
abstract environment. -/
structure FsEnv where
  sdIsFile : Str → Bool
  romfsMakeAbsolute : Str → Str

/-- Embeds `Settings::PathForResource` (cfg_Settings.cpp lines 97-108): prefer
`external_romfs + "/" + res_path` when the external-romfs flag is set and
that path is a regular file on the SD card; otherwise resolve the relative
path against the bundled RomFs root. -/
def PathForResource (env : FsEnv) (s : Settings) (res_path : Str) : Str :=
  if s.has_external_romfs then
    let ext_path := s.external_romfs ++ '/' :: res_path
    if env.sdIsFile ext_path then ext_path
    else env.romfsMakeAbsolute res_path
  else env.romfsMakeAbsolute res_path

/-- The process-wide default-language cache (cfg_Settings.cpp lines 36-37):
`g_DefaultLanguage` and `g_DefaultLanguageLoaded`. -/
structure LangState where
  g_DefaultLanguage : Language
  g_DefaultLanguageLoaded : Bool
  deriving DecidableEq, Repr

/-- The cache's static initializers: English, not loaded. -/
def initLangState : LangState :=
  { g_DefaultLanguage := Language.English, g_DefaultLanguageLoaded := false }

/-- Embeds `EnsureDefaultLanguage` (cfg_Settings.cpp lines 39-50).  `host` stands
for the composed host query `GetLanguageBySystemLanguage(setMakeLanguage(
setGetSystemLanguage()))`; the returned `Nat` counts how many times that
query ran. -/
def EnsureDefaultLanguage (host : Language) (st : LangState) : LangState × Nat :=
  if st.g_DefaultLanguageLoaded then (st, 0)
  else ({ g_DefaultLanguage := host, g_DefaultLanguageLoaded := true }, 1)

/-- Embeds `Settings::GetLanguage` (cfg_Settings.cpp lines 242-250): the returned
language, the cache state afterwards, and how many host queries ran. -/
def GetLanguage (host : Language) (s : Settings) (st : LangState) :
    Language × LangState × Nat :=
  if s.has_custom_lang then (s.custom_lang, st, 0)
  else
    let r := EnsureDefaultLanguage host st
    (r.1.g_DefaultLanguage, r.1, r.2)

/-- Modelled from the spec: the `pu::ui::elm::Menu` widget of the UI
collaborator, reduced to its scrollbar color plus an abstract remainder
standing for all its other state. -/
structure Menu where
  scrollbar_color : Color
  rest : Nat
  deriving DecidableEq, Repr

/-- Modelled from the spec: the `pu::ui::elm::ProgressBar` widget of the UI
collaborator, reduced to its progress color plus an abstract remainder. -/
structure ProgressBar where
  progress_color : Color
  rest : Nat
  deriving DecidableEq, Repr

/-- Embeds `Settings::ApplyScrollBarColor` (cfg_Settings.cpp lines 123-127),
returning the settings value and the widget after the call. -/
def ApplyScrollBarColor (s : Settings) (menu : Menu) : Settings × Menu :=
  if s.has_scrollbar_color then
    (s, { menu with scrollbar_color := s.scrollbar_color })
  else (s, menu)

/-- Embeds `Settings::ApplyProgressBarColor` (cfg_Settings.cpp lines 129-133),
returning the settings value and the widget after the call. -/
def ApplyProgressBarColor (s : Settings) (p_bar : ProgressBar) : Settings × ProgressBar :=
  if s.has_progressbar_color then
    (s, { p_bar with progress_color := s.progressbar_color })
  else (s, p_bar)

/-- Embeds `ui::DefaultMenuHeight` (ui_Utils.hpp line 37). -/
def DefaultMenuHeight : Nat := 560

/-- Embeds `ui::ComputeDefaultMenuItemCount` (ui_Utils.hpp lines 39-41):
`DefaultMenuHeight / menu_item_size` as `u32` division, which is undefined
behavior at 0; the undefined case is modelled as `none`. -/
def ComputeDefaultMenuItemCount (menu_item_size : Nat) : Option Nat :=
  if menu_item_size = 0 then none else some (DefaultMenuHeight / menu_item_size)

/-! Concrete inputs used by witnesses and counterexample evaluations. -/

/-- An all-zero color scheme, standing in for one random scheme. -/
def schemeZero : ColorScheme :=
  { bg := ⟨0, 0, 0, 0⟩, base := ⟨0, 0, 0, 0⟩, base_focus := ⟨0, 0, 0, 0⟩, text := ⟨0, 0, 0, 0⟩ }

/-- A fully customized settings value: every `has_*` flag true, the external
romfs path already normalized, one well-formed bookmark, and a
`decrypt_buffer_max_size` of 8 MiB (differing from the 16 MiB default). -/
def exampleSettings : Settings :=
  { has_custom_lang := true
    custom_lang := Language.Spanish
    has_external_romfs := true
    external_romfs := "sdmc:/ext".toList
    use_12h_time := true
    ignore_hidden_files := true
    has_custom_scheme := true
    custom_scheme := { bg := ⟨16, 32, 48, 255⟩, base := ⟨1, 2, 3, 4⟩,
                       base_focus := ⟨5, 6, 7, 8⟩, text := ⟨250, 251, 252, 253⟩ }
    menu_item_size := 100
    has_scrollbar_color := true
    scrollbar_color := ⟨10, 20, 30, 40⟩
    has_progressbar_color := true
    progressbar_color := ⟨50, 60, 70, 80⟩
    ignore_required_fw_ver := false
    show_deletion_prompt_after_install := true
    copy_buffer_max_size := 2 * 1024 * 1024
    decrypt_buffer_max_size := 8 * 1024 * 1024
    bookmarks := [{ name := "B".toList, url := "http://x".toList }] }

/-- A storage environment where exactly `sdmc:/ext/foo.json` exists on the
SD card and the bundled root resolves paths under `romfs:/`. -/
def exampleEnv : FsEnv :=
  { sdIsFile := fun p => p == "sdmc:/ext/foo.json".toList
    romfsMakeAbsolute := fun p => "romfs:/".toList ++ p }

/-- Settings with only the external-romfs override enabled, rooted at
`sdmc:/ext`. -/
def exampleExtSettings : Settings :=
  { DefaultSettings with has_external_romfs := true, external_romfs := "sdmc:/ext".toList }

/-- A document whose `export` section is present (with a 2 MiB value) while
its `installs` section carries `decryptBufferMaxSize = 1024`. -/
def docWithExport : Doc :=
  { EmptyDoc with
    installs := some { ignoreRequiredFwVersion := none, showDeletionPromptAfterInstall := none,
                       copyBufferMaxSize := none, decryptBufferMaxSize := some 1024 }
    exportSec := some { decryptBufferMaxSize := some (2 * 1024 * 1024) } }

/-- A document whose `export` section is present (with
`decryptBufferMaxSize = 1024`) while its `installs` section is absent: the
load's `export` block then indexes the missing `installs` section. -/
def docExportNoInstalls : Doc :=
  { EmptyDoc with exportSec := some { decryptBufferMaxSize := some 1024 } }

/-- A document with a `general` section whose `externalRomFs` is `"ext"`. -/
def docWithExtRomFs : Doc :=
  { EmptyDoc with
    general := some { customLanguage := [], externalRomFs := "ext".toList,
                      use12hTime := none, ignoreHiddenFiles := none } }

/-- The spec's bookmark-filtering example array:
`[{name:"A",url:""}, {name:"B",url:"http://x"}]`. -/
def bookmarksAB : List WebBookmark :=
  [{ name := "A".toList, url := [] },
   { name := "B".toList, url := "http://x".toList }]

/-- The spec's bookmark-filtering example document:
`web.bookmarks = [{name:"A",url:""}, {name:"B",url:"http://x"}]`. -/
def docBookmarks : Doc :=
  { EmptyDoc with web := some { bookmarks := some bookmarksAB } }

/-- A `ui` section specifying only a non-empty `background` key. -/
def uiOnlyBackground : UiSection :=
  { background := "#10203040".toList, base := [], baseFocus := [], text := [],
    menuItemSize := none, scrollBar := [], progressBar := [] }

/-- A document whose `ui` section specifies only `background`. -/
def docOnlyBackground : Doc :=
  { EmptyDoc with ui := some uiOnlyBackground }

/-- A document whose `ui` section sets `menuItemSize` to 0. -/
def docZeroMenuItemSize : Doc :=
  { EmptyDoc with
    ui := some { background := [], base := [], baseFocus := [], text := [],
                 menuItemSize := some 0, scrollBar := [], progressBar := [] } }

/-! Preservation lemmas: each merge block leaves the fields it does not
mention untouched. -/

@[simp] theorem applyGeneral_custom_scheme (g : GeneralSection) (s : Settings) :
    (applyGeneral g s).custom_scheme = s.custom_scheme := by
  unfold applyGeneral; split_ifs <;> rfl

@[simp] theorem applyGeneral_has_custom_scheme (g : GeneralSection) (s : Settings) :
    (applyGeneral g s).has_custom_scheme = s.has_custom_scheme := by
  unfold applyGeneral; split_ifs <;> rfl

@[simp] theorem applyGeneral_menu_item_size (g : GeneralSection) (s : Settings) :
    (applyGeneral g s).menu_item_size = s.menu_item_size := by
  unfold applyGeneral; split_ifs <;> rfl

@[simp] theorem applyGeneral_decrypt (g : GeneralSection) (s : Settings) :
    (applyGeneral g s).decrypt_buffer_max_size = s.decrypt_buffer_max_size := by
  unfold applyGeneral; split_ifs <;> rfl

@[simp] theorem applyGeneral_bookmarks (g : GeneralSection) (s : Settings) :
    (applyGeneral g s).bookmarks = s.bookmarks := by
  unfold applyGeneral; split_ifs <;> rfl

@[simp] theorem applyUi_has_external_romfs (u : UiSection) (s : Settings) :
    (applyUi u s).has_external_romfs = s.has_external_romfs := by
  unfold applyUi; split_ifs <;> rfl

@[simp] theorem applyUi_external_romfs (u : UiSection) (s : Settings) :
    (applyUi u s).external_romfs = s.external_romfs := by
  unfold applyUi; split_ifs <;> rfl

@[simp] theorem applyUi_decrypt (u : UiSection) (s : Settings) :
    (applyUi u s).decrypt_buffer_max_size = s.decrypt_buffer_max_size := by
  unfold applyUi; split_ifs <;> rfl

@[simp] theorem applyUi_bookmarks (u : UiSection) (s : Settings) :
    (applyUi u s).bookmarks = s.bookmarks := by
  unfold applyUi; split_ifs <;> rfl

@[simp] theorem applyInstalls_has_external_romfs (i : InstallsSection) (s : Settings) :
    (applyInstalls i s).has_external_romfs = s.has_external_romfs := rfl

@[simp] theorem applyInstalls_external_romfs (i : InstallsSection) (s : Settings) :
    (applyInstalls i s).external_romfs = s.external_romfs := rfl

@[simp] theorem applyInstalls_custom_scheme (i : InstallsSection) (s : Settings) :
    (applyInstalls i s).custom_scheme = s.custom_scheme := rfl

@[simp] theorem applyInstalls_has_custom_scheme (i : InstallsSection) (s : Settings) :
    (applyInstalls i s).has_custom_scheme = s.has_custom_scheme := rfl

@[simp] theorem applyInstalls_menu_item_size (i : InstallsSection) (s : Settings) :
    (applyInstalls i s).menu_item_size = s.menu_item_size := rfl

@[simp] theorem applyInstalls_decrypt (i : InstallsSection) (s : Settings) :
    (applyInstalls i s).decrypt_buffer_max_size = s.decrypt_buffer_max_size := rfl

@[simp] theorem applyInstalls_bookmarks (i : InstallsSection) (s : Settings) :
    (applyInstalls i s).bookmarks = s.bookmarks := rfl

@[simp] theorem applyExport_has_external_romfs (oi : Option InstallsSection) (s : Settings) :
    (applyExport oi s).has_external_romfs = s.has_external_romfs := by
  unfold applyExport; split <;> rfl

@[simp] theorem applyExport_external_romfs (oi : Option InstallsSection) (s : Settings) :
    (applyExport oi s).external_romfs = s.external_romfs := by
  unfold applyExport; split <;> rfl

@[simp] theorem applyExport_custom_scheme (oi : Option InstallsSection) (s : Settings) :
    (applyExport oi s).custom_scheme = s.custom_scheme := by
  unfold applyExport; split <;> rfl

@[simp] theorem applyExport_has_custom_scheme (oi : Option InstallsSection) (s : Settings) :
    (applyExport oi s).has_custom_scheme = s.has_custom_scheme := by
  unfold applyExport; split <;> rfl

@[simp] theorem applyExport_menu_item_size (oi : Option InstallsSection) (s : Settings) :
    (applyExport oi s).menu_item_size = s.menu_item_size := by
  unfold applyExport; split <;> rfl

@[simp] theorem applyExport_bookmarks (oi : Option InstallsSection) (s : Settings) :
    (applyExport oi s).bookmarks = s.bookmarks := by
  unfold applyExport; split <;> rfl

@[simp] theorem applyWeb_has_external_romfs (w : WebSection) (s : Settings) :
    (applyWeb w s).has_external_romfs = s.has_external_romfs := by
  unfold applyWeb; split <;> rfl

@[simp] theorem applyWeb_external_romfs (w : WebSection) (s : Settings) :
    (applyWeb w s).external_romfs = s.external_romfs := by
  unfold applyWeb; split <;> rfl

@[simp] theorem applyWeb_custom_scheme (w : WebSection) (s : Settings) :
    (applyWeb w s).custom_scheme = s.custom_scheme := by
  unfold applyWeb; split <;> rfl

@[simp] theorem applyWeb_has_custom_scheme (w : WebSection) (s : Settings) :
    (applyWeb w s).has_custom_scheme = s.has_custom_scheme := by
  unfold applyWeb; split <;> rfl

@[simp] theorem applyWeb_menu_item_size (w : WebSection) (s : Settings) :
    (applyWeb w s).menu_item_size = s.menu_item_size := by
  unfold applyWeb; split <;> rfl

@[simp] theorem applyWeb_decrypt (w : WebSection) (s : Settings) :
    (applyWeb w s).decrypt_buffer_max_size = s.decrypt_buffer_max_size := by
  unfold applyWeb; split <;> rfl

/-! Behavior lemmas: what each merge block does to the fields it sets. -/

@[simp] theorem applyGeneral_has_external_romfs (g : GeneralSection) (s : Settings) :
    (applyGeneral g s).has_external_romfs =
      (if g.externalRomFs = [] then s.has_external_romfs else true) := by
  unfold applyGeneral; split_ifs <;> rfl

@[simp] theorem applyGeneral_external_romfs (g : GeneralSection) (s : Settings) :
    (applyGeneral g s).external_romfs =
      (if g.externalRomFs = [] then s.external_romfs
       else normalizeExtRomFs g.externalRomFs) := by
  unfold applyGeneral; split_ifs <;> rfl

@[simp] theorem applyUi_custom_scheme (u : UiSection) (s : Settings) :
    (applyUi u s).custom_scheme =
      { bg := if u.background = [] then s.custom_scheme.bg else FromHex u.background
        base := if u.base = [] then s.custom_scheme.base else FromHex u.base
        base_focus := if u.baseFocus = [] then s.custom_scheme.base_focus
          else FromHex u.baseFocus
        text := if u.text = [] then s.custom_scheme.text else FromHex u.text } := by
  unfold applyUi; split_ifs <;> rfl

@[simp] theorem applyUi_has_custom_scheme (u : UiSection) (s : Settings) :
    (applyUi u s).has_custom_scheme =
      (if u.background = [] then
        (if u.base = [] then
          (if u.baseFocus = [] then
            (if u.text = [] then s.has_custom_scheme else true) else true) else true)
       else true) := by
  unfold applyUi; split_ifs <;> rfl

@[simp] theorem applyUi_menu_item_size (u : UiSection) (s : Settings) :
    (applyUi u s).menu_item_size = u.menuItemSize.getD s.menu_item_size := by
  unfold applyUi; split_ifs <;> rfl

@[simp] theorem applyExport_decrypt (oi : Option InstallsSection) (s : Settings) :
    (applyExport oi s).decrypt_buffer_max_size =
      ((oi.bind fun i => i.decryptBufferMaxSize).getD s.decrypt_buffer_max_size) := by
  cases oi <;> simp [applyExport]

@[simp] theorem applyWeb_bookmarks (w : WebSection) (s : Settings) :
    (applyWeb w s).bookmarks =
      s.bookmarks ++
        (w.bookmarks.getD []).filter (fun bmk => !bmk.url.isEmpty && !bmk.name.isEmpty) := by
  cases h : w.bookmarks <;> simp [applyWeb, h]

/-! Characterizations of single fields of the fully merged settings. -/

theorem ProcessSettings_external_fields (scheme : ColorScheme) (doc : Doc) :
    ((ProcessSettings scheme (some doc)).has_external_romfs =
      (match doc.general with
       | some g => (if g.externalRomFs = [] then false else true)
       | none => false)) ∧
    ((ProcessSettings scheme (some doc)).external_romfs =
      (match doc.general with
       | some g => (if g.externalRomFs = [] then [] else normalizeExtRomFs g.externalRomFs)
       | none => [])) := by
  obtain ⟨og, ou, oi, oe, ow⟩ := doc
  constructor <;>
    (cases og <;> cases ou <;> cases oi <;> cases oe <;> cases ow <;>
      simp [ProcessSettings, DefaultSettings])

theorem ProcessSettings_bookmarks (scheme : ColorScheme) (doc : Doc) :
    (ProcessSettings scheme (some doc)).bookmarks =
      ((doc.web.bind fun w => w.bookmarks).getD []).filter
        (fun bmk => !bmk.url.isEmpty && !bmk.name.isEmpty) := by
  obtain ⟨og, ou, oi, oe, ow⟩ := doc
  cases og <;> cases ou <;> cases oi <;> cases oe <;> cases ow <;>
    simp [ProcessSettings, DefaultSettings]

theorem ProcessSettings_scheme_fields (scheme : ColorScheme) (doc : Doc) :
    ((ProcessSettings scheme (some doc)).custom_scheme =
      (match doc.ui with
       | some u =>
         { bg := if u.background = [] then scheme.bg else FromHex u.background
           base := if u.base = [] then scheme.base else FromHex u.base
           base_focus := if u.baseFocus = [] then scheme.base_focus else FromHex u.baseFocus
           text := if u.text = [] then scheme.text else FromHex u.text }
       | none => scheme)) ∧
    ((ProcessSettings scheme (some doc)).has_custom_scheme =
      (match doc.ui with
       | some u =>
         (if u.background = [] then
           (if u.base = [] then
             (if u.baseFocus = [] then
               (if u.text = [] then false else true) else true) else true)
          else true)
       | none => false)) := by
  obtain ⟨og, ou, oi, oe, ow⟩ := doc
  constructor <;>
    (cases og <;> cases ou <;> cases oi <;> cases oe <;> cases ow <;>
      simp [ProcessSettings, DefaultSettings])

theorem ProcessSettingsChecked_sound (scheme : ColorScheme) (doc : Doc) (s : Settings)
    (h : ProcessSettingsChecked scheme (some doc) = some s) :
    ProcessSettings scheme (some doc) = s := by
  obtain ⟨og, ou, oi, oe, ow⟩ := doc
  cases og <;> cases ou <;> cases oi <;> cases oe <;> cases ow <;>
    simp_all [ProcessSettingsChecked, ProcessSettings, applyExportChecked, applyExport]

theorem ProcessSettings_menu_item_size (scheme : ColorScheme) (doc : Doc) :
    (ProcessSettings scheme (some doc)).menu_item_size =
      (match doc.ui with
       | some u => u.menuItemSize.getD 80
       | none => 80) := by
  obtain ⟨og, ou, oi, oe, ow⟩ := doc
  cases og <;> cases ou <;> cases oi <;> cases oe <;> cases ow <;>
    simp [ProcessSettings, DefaultSettings]

/-! Claim theorems. -/

/-- C5: loading from a missing or empty settings document yields
`menu_item_size = 80`, `copy_buffer_max_size = 4 MiB`,
`decrypt_buffer_max_size = 16 MiB`, `ignore_required_fw_ver = true`,
`use_12h_time`, `ignore_hidden_files` and `show_deletion_prompt_after_install`
false, all `has_*` flags false, and no bookmarks. -/
theorem load_defaults (scheme : ColorScheme) (file : Option Doc)
    (h : file = none ∨ file = some EmptyDoc) :
    (ProcessSettings scheme file).menu_item_size = 80 ∧
    (ProcessSettings scheme file).copy_buffer_max_size = 4 * 1024 * 1024 ∧
    (ProcessSettings scheme file).decrypt_buffer_max_size = 16 * 1024 * 1024 ∧
    (ProcessSettings scheme file).ignore_required_fw_ver = true ∧
    (ProcessSettings scheme file).use_12h_time = false ∧
    (ProcessSettings scheme file).ignore_hidden_files = false ∧
    (ProcessSettings scheme file).show_deletion_prompt_after_install = false ∧
    (ProcessSettings scheme file).has_custom_lang = false ∧
    (ProcessSettings scheme file).has_external_romfs = false ∧
    (ProcessSettings scheme file).has_custom_scheme = false ∧
    (ProcessSettings scheme file).has_scrollbar_color = false ∧
    (ProcessSettings scheme file).has_progressbar_color = false ∧
    (ProcessSettings scheme file).bookmarks = [] := by
  rcases h with rfl | rfl <;>
    exact ⟨rfl, rfl, rfl, rfl, rfl, rfl, rfl, rfl, rfl, rfl, rfl, rfl, rfl⟩

/-- Witness for C5: the defaults theorem applied to the missing-file case. -/
theorem load_defaults_witness :
    (ProcessSettings schemeZero none).menu_item_size = 80 ∧
    (ProcessSettings schemeZero none).copy_buffer_max_size = 4 * 1024 * 1024 ∧
    (ProcessSettings schemeZero none).decrypt_buffer_max_size = 16 * 1024 * 1024 ∧
    (ProcessSettings schemeZero none).ignore_required_fw_ver = true ∧
    (ProcessSettings schemeZero none).use_12h_time = false ∧
    (ProcessSettings schemeZero none).ignore_hidden_files = false ∧
    (ProcessSettings schemeZero none).show_deletion_prompt_after_install = false ∧
    (ProcessSettings schemeZero none).has_custom_lang = false ∧
    (ProcessSettings schemeZero none).has_external_romfs = false ∧
    (ProcessSettings schemeZero none).has_custom_scheme = false ∧
    (ProcessSettings schemeZero none).has_scrollbar_color = false ∧
    (ProcessSettings schemeZero none).has_progressbar_color = false ∧
    (ProcessSettings schemeZero none).bookmarks = [] :=
  load_defaults schemeZero none (Or.inl rfl)

/-- Counterexample for C2 as stated: on a document whose `export` section is
present but whose `installs` section is absent, the load does not produce a
settings value carrying the 16 MiB default — the `export` block indexes the
missing `installs` section (an assertion failure / undefined behavior), so
the faithful load yields no settings value at all. -/
theorem decrypt_default_not_loaded_without_installs :
    docExportNoInstalls.exportSec = some { decryptBufferMaxSize := some 1024 } ∧
    docExportNoInstalls.installs = none ∧
    ProcessSettingsChecked schemeZero (some docExportNoInstalls) = none := by
  refine ⟨rfl, rfl, rfl⟩

/-- C2 (amended): the load path reads `decryptBufferMaxSize` from the
`installs` section while `Save` writes it under `export` (and never under
`installs`); for every document whose `export` and `installs` sections are
both present, the load completes and `decrypt_buffer_max_size` equals
`installs.decryptBufferMaxSize` when that key exists and the 16 MiB default
otherwise, regardless of any `export.decryptBufferMaxSize` value; when
`installs` is absent the `export` block's read of the missing section is an
assertion failure / undefined behavior and no settings value results. -/
theorem decrypt_loaded_from_installs (scheme : ColorScheme) (doc : Doc)
    (e : ExportSection) (i : InstallsSection) (s : Settings)
    (he : doc.exportSec = some e) (hi : doc.installs = some i) :
    ProcessSettingsChecked scheme (some doc) = some (ProcessSettings scheme (some doc)) ∧
    (ProcessSettings scheme (some doc)).decrypt_buffer_max_size =
      (i.decryptBufferMaxSize.getD (16 * 1024 * 1024)) ∧
    (Save s).exportSec = some { decryptBufferMaxSize := some s.decrypt_buffer_max_size } ∧
    ((Save s).installs.bind fun i2 => i2.decryptBufferMaxSize) = none ∧
    (∀ doc2 : Doc, doc2.exportSec ≠ none → doc2.installs = none →
      ProcessSettingsChecked scheme (some doc2) = none) := by
  refine ⟨?_, ?_, rfl, rfl, ?_⟩
  · obtain ⟨og, ou, oi, oe, ow⟩ := doc
    obtain rfl : oe = some e := he
    obtain rfl : oi = some i := hi
    cases og <;> cases ou <;> cases ow <;>
      simp [ProcessSettingsChecked, ProcessSettings, applyExportChecked, applyExport]
  · obtain ⟨og, ou, oi, oe, ow⟩ := doc
    obtain rfl : oe = some e := he
    obtain rfl : oi = some i := hi
    cases og <;> cases ou <;> cases ow <;>
      simp [ProcessSettings, DefaultSettings]
  · intro doc2 h1 h2
    obtain ⟨og, ou, oi, oe, ow⟩ := doc2
    obtain rfl : oi = none := h2
    obtain ⟨e2, rfl⟩ : ∃ e2, oe = some e2 := Option.ne_none_iff_exists'.mp h1
    cases og <;> cases ou <;> cases ow <;>
      simp [ProcessSettingsChecked, applyExportChecked]

/-- Witness for C2: on a document whose `installs` section carries
`decryptBufferMaxSize = 1024` and whose `export` section carries 2 MiB, the
faithful load completes and the loaded value is the `installs` one. -/
theorem decrypt_loaded_from_installs_witness :
    ProcessSettingsChecked schemeZero (some docWithExport) =
      some (ProcessSettings schemeZero (some docWithExport)) ∧
    (ProcessSettings schemeZero (some docWithExport)).decrypt_buffer_max_size =
      ((Option.some (1024 : Nat)).getD (16 * 1024 * 1024)) ∧
    (Save exampleSettings).exportSec =
      some { decryptBufferMaxSize := some exampleSettings.decrypt_buffer_max_size } ∧
    ((Save exampleSettings).installs.bind fun i2 => i2.decryptBufferMaxSize) = none ∧
    (∀ doc2 : Doc, doc2.exportSec ≠ none → doc2.installs = none →
      ProcessSettingsChecked schemeZero (some doc2) = none) :=
  decrypt_loaded_from_installs schemeZero docWithExport
    { decryptBufferMaxSize := some (2 * 1024 * 1024) }
    { ignoreRequiredFwVersion := none, showDeletionPromptAfterInstall := none,
      copyBufferMaxSize := none, decryptBufferMaxSize := some 1024 }
    exampleSettings rfl rfl

/-- C6: `PathForResource` returns `external_romfs ++ "/" ++ path` exactly
when the external-romfs flag is set and that path is a regular file on the
SD card; otherwise it returns the bundled root's absolute resolution. -/
theorem PathForResource_precedence (env : FsEnv) (s : Settings) (res_path : Str) :
    (s.has_external_romfs = true →
      env.sdIsFile (s.external_romfs ++ '/' :: res_path) = true →
      PathForResource env s res_path = s.external_romfs ++ '/' :: res_path) ∧
    (s.has_external_romfs = false →
      PathForResource env s res_path = env.romfsMakeAbsolute res_path) ∧
    (env.sdIsFile (s.external_romfs ++ '/' :: res_path) = false →
      PathForResource env s res_path = env.romfsMakeAbsolute res_path) := by
  refine ⟨fun h1 h2 => ?_, fun h1 => ?_, fun h2 => ?_⟩
  · simp [PathForResource, h1, h2]
  · simp [PathForResource, h1]
  · by_cases hf : s.has_external_romfs <;> simp [PathForResource, hf, h2]

/-- Witness for C6: the spec's precedence example, with `sdmc:/ext/foo.json`
present on the SD card. -/
theorem PathForResource_precedence_witness :
    PathForResource exampleEnv exampleExtSettings "foo.json".toList =
      "sdmc:/ext/foo.json".toList :=
  ((PathForResource_precedence exampleEnv exampleExtSettings "foo.json".toList).1
    rfl (by decide)).trans (by decide)

/-- C7: `GetLanguage` returns `custom_lang` directly (no host query, cache
untouched) when the flag is set; otherwise the first call queries the host
once and caches the converted result, and every later call with the flag
unset returns the cached value with zero host queries. -/
theorem GetLanguage_caching (host : Language) (s s2 : Settings) (st : LangState) :
    (s.has_custom_lang = true → GetLanguage host s st = (s.custom_lang, st, 0)) ∧
    (s.has_custom_lang = false → st.g_DefaultLanguageLoaded = false →
      GetLanguage host s st =
        (host, { g_DefaultLanguage := host, g_DefaultLanguageLoaded := true }, 1)) ∧
    (s.has_custom_lang = false → st.g_DefaultLanguageLoaded = true →
      GetLanguage host s st = (st.g_DefaultLanguage, st, 0)) ∧
    (s.has_custom_lang = false → s2.has_custom_lang = false →
      GetLanguage host s2 (GetLanguage host s st).2.1 =
        ((GetLanguage host s st).1, (GetLanguage host s st).2.1, 0)) := by
  refine ⟨fun h1 => ?_, fun h1 h2 => ?_, fun h1 h2 => ?_, fun h1 h3 => ?_⟩
  · simp [GetLanguage, h1]
  · simp [GetLanguage, EnsureDefaultLanguage, h1, h2]
  · simp [GetLanguage, EnsureDefaultLanguage, h1, h2]
  · by_cases h2 : st.g_DefaultLanguageLoaded <;>
      simp [GetLanguage, EnsureDefaultLanguage, h1, h2, h3]

/-- Witness for C7: starting from the unloaded cache, the first call queries
the host once and the second call reuses the cache without querying. -/
theorem GetLanguage_caching_witness :
    GetLanguage Language.German DefaultSettings initLangState =
      (Language.German,
       { g_DefaultLanguage := Language.German, g_DefaultLanguageLoaded := true }, 1) ∧
    GetLanguage Language.German DefaultSettings
        (GetLanguage Language.German DefaultSettings initLangState).2.1 =
      ((GetLanguage Language.German DefaultSettings initLangState).1,
       (GetLanguage Language.German DefaultSettings initLangState).2.1, 0) :=
  ⟨(GetLanguage_caching Language.German DefaultSettings DefaultSettings initLangState).2.1
      rfl rfl,
   (GetLanguage_caching Language.German DefaultSettings DefaultSettings initLangState).2.2.2
      rfl rfl⟩

/-- C9: `ApplyScrollBarColor` recolors the menu's scrollbar exactly when
`has_scrollbar_color` is set, `ApplyProgressBarColor` recolors the progress
bar exactly when `has_progressbar_color` is set; with the flag unset the
widget is unchanged, and the settings value is never modified. -/
theorem apply_widget_colors (s : Settings) (menu : Menu) (p_bar : ProgressBar) :
    (s.has_scrollbar_color = true →
      ApplyScrollBarColor s menu =
        (s, { menu with scrollbar_color := s.scrollbar_color })) ∧
    (s.has_scrollbar_color = false → ApplyScrollBarColor s menu = (s, menu)) ∧
    (s.has_progressbar_color = true →
      ApplyProgressBarColor s p_bar =
        (s, { p_bar with progress_color := s.progressbar_color })) ∧
    (s.has_progressbar_color = false → ApplyProgressBarColor s p_bar = (s, p_bar)) ∧
    (ApplyScrollBarColor s menu).1 = s ∧
    (ApplyProgressBarColor s p_bar).1 = s := by
  refine ⟨fun h => by simp [ApplyScrollBarColor, h],
          fun h => by simp [ApplyScrollBarColor, h],
          fun h => by simp [ApplyProgressBarColor, h],
          fun h => by simp [ApplyProgressBarColor, h],
          ?_, ?_⟩
  · unfold ApplyScrollBarColor; split_ifs <;> rfl
  · unfold ApplyProgressBarColor; split_ifs <;> rfl

/-- Witness for C9: with both flags set, both widgets are recolored from the
settings. -/
theorem apply_widget_colors_witness :
    ApplyScrollBarColor exampleSettings (Menu.mk ⟨0, 0, 0, 0⟩ 7) =
      (exampleSettings, Menu.mk exampleSettings.scrollbar_color 7) ∧
    ApplyProgressBarColor exampleSettings (ProgressBar.mk ⟨0, 0, 0, 0⟩ 9) =
      (exampleSettings, ProgressBar.mk exampleSettings.progressbar_color 9) :=
  ⟨(apply_widget_colors exampleSettings (Menu.mk ⟨0, 0, 0, 0⟩ 7)
      (ProgressBar.mk ⟨0, 0, 0, 0⟩ 9)).1 rfl,
   (apply_widget_colors exampleSettings (Menu.mk ⟨0, 0, 0, 0⟩ 7)
      (ProgressBar.mk ⟨0, 0, 0, 0⟩ 9)).2.2.1 rfl⟩

/-- C3: a non-empty `externalRomFs` value always loads into an
`external_romfs` beginning with `"sdmc:/"`: values already carrying the
prefix are kept, others get `"sdmc:"` prepended with a `"/"` separator when
they do not start with `'/'` (so `"ext"` becomes `"sdmc:/ext"`), and
`has_external_romfs` is set exactly when the field is present and
non-empty. -/
theorem externalRomFs_normalization (scheme : ColorScheme) (doc : Doc) :
    ((ProcessSettings scheme (some doc)).has_external_romfs = true ↔
       ∃ g, doc.general = some g ∧ g.externalRomFs ≠ []) ∧
    (∀ g, doc.general = some g → g.externalRomFs ≠ [] →
       (ProcessSettings scheme (some doc)).external_romfs =
         normalizeExtRomFs g.externalRomFs) ∧
    (∀ v : Str, v ≠ [] → (normalizeExtRomFs v).take 6 = sdmcRoot) ∧
    (∀ v : Str, v.take 6 = sdmcRoot → normalizeExtRomFs v = v) ∧
    (∀ v : Str, v.take 6 ≠ sdmcRoot → v.head? = some '/' →
       normalizeExtRomFs v = sdmcScheme ++ v) ∧
    (∀ v : Str, v.take 6 ≠ sdmcRoot → v.head? ≠ some '/' →
       normalizeExtRomFs v = sdmcScheme ++ '/' :: v) ∧
    normalizeExtRomFs "ext".toList = "sdmc:/ext".toList := by
  refine ⟨?_, ?_, ?_, ?_, ?_, ?_, by decide⟩
  · rw [(ProcessSettings_external_fields scheme doc).1]
    cases hg : doc.general with
    | none => simp
    | some g => by_cases h : g.externalRomFs = [] <;> simp [h]
  · intro g hg hne
    rw [(ProcessSettings_external_fields scheme doc).2, hg]
    simp [hne]
  · intro v _
    unfold normalizeExtRomFs
    split_ifs with h1 h2
    · exact h1
    · cases v with
      | nil => simp at h2
      | cons c t =>
        obtain rfl : c = '/' := by simpa using h2
        rfl
    · rfl
  · intro v hv
    unfold normalizeExtRomFs
    rw [if_pos hv]
  · intro v h1 h2
    unfold normalizeExtRomFs
    rw [if_neg h1, if_pos h2]
  · intro v h1 h2
    unfold normalizeExtRomFs
    rw [if_neg h1, if_neg h2]

/-- Witness for C3: the document carrying `externalRomFs = "ext"` loads with
the flag set and the path normalized to `"sdmc:/ext"`. -/
theorem externalRomFs_normalization_witness :
    (ProcessSettings schemeZero (some docWithExtRomFs)).has_external_romfs = true ∧
    (ProcessSettings schemeZero (some docWithExtRomFs)).external_romfs =
      "sdmc:/ext".toList := by
  have h := externalRomFs_normalization schemeZero docWithExtRomFs
  exact ⟨h.1.mpr ⟨_, rfl, by decide⟩, (h.2.1 _ rfl (by decide)).trans (by decide)⟩

/-- C4: every loaded bookmark has a non-empty name and a non-empty url;
entries failing that are dropped while the survivors keep the on-disk order
(the result is a filter of the on-disk array), and the spec's two-entry
example yields exactly the bookmark `("B", "http://x")`. -/
theorem bookmarks_validated (scheme : ColorScheme) (doc : Doc) :
    (∀ bmk ∈ (ProcessSettings scheme (some doc)).bookmarks,
       bmk.name ≠ [] ∧ bmk.url ≠ []) ∧
    (∀ w bmks, doc.web = some w → w.bookmarks = some bmks →
       (ProcessSettings scheme (some doc)).bookmarks =
         bmks.filter (fun bmk => !bmk.url.isEmpty && !bmk.name.isEmpty)) ∧
    (ProcessSettings scheme (some docBookmarks)).bookmarks =
      [{ name := "B".toList, url := "http://x".toList }] := by
  refine ⟨?_, ?_, ?_⟩
  · intro bmk hmem
    rw [ProcessSettings_bookmarks] at hmem
    have hp := List.of_mem_filter hmem
    simp only [Bool.and_eq_true, Bool.not_eq_true'] at hp
    constructor
    · simpa using hp.2
    · simpa using hp.1
  · intro w bmks hw hb
    rw [ProcessSettings_bookmarks, hw]
    simp [hb]
  · rw [ProcessSettings_bookmarks]
    decide

/-- Witness for C4: the filter characterization applied to the spec's
two-entry example document. -/
theorem bookmarks_validated_witness :
    (ProcessSettings schemeZero (some docBookmarks)).bookmarks =
      bookmarksAB.filter (fun bmk => !bmk.url.isEmpty && !bmk.name.isEmpty) :=
  (bookmarks_validated schemeZero docBookmarks).2.1 _ bookmarksAB rfl rfl

/-- C8: a `ui` section carrying only a non-empty `background` loads with
`has_custom_scheme` set, `custom_scheme.bg` decoded from the hex string, and
the other three scheme colors taken from the random scheme generated at the
start of the load; moreover each of the four scheme colors is independently
overridable. -/
theorem partial_scheme_override (scheme : ColorScheme) (doc : Doc) (u : UiSection)
    (hu : doc.ui = some u) (hb : u.background ≠ [])
    (hbase : u.base = []) (hbf : u.baseFocus = []) (ht : u.text = []) :
    (ProcessSettings scheme (some doc)).has_custom_scheme = true ∧
    (ProcessSettings scheme (some doc)).custom_scheme.bg = FromHex u.background ∧
    (ProcessSettings scheme (some doc)).custom_scheme.base = scheme.base ∧
    (ProcessSettings scheme (some doc)).custom_scheme.base_focus = scheme.base_focus ∧
    (ProcessSettings scheme (some doc)).custom_scheme.text = scheme.text ∧
    (∀ (u2 : UiSection) (s : Settings),
      (applyUi u2 s).custom_scheme =
        { bg := if u2.background = [] then s.custom_scheme.bg else FromHex u2.background
          base := if u2.base = [] then s.custom_scheme.base else FromHex u2.base
          base_focus := if u2.baseFocus = [] then s.custom_scheme.base_focus
            else FromHex u2.baseFocus
          text := if u2.text = [] then s.custom_scheme.text else FromHex u2.text }) := by
  have hs := (ProcessSettings_scheme_fields scheme doc).1
  have hh := (ProcessSettings_scheme_fields scheme doc).2
  rw [hu] at hs hh
  refine ⟨?_, ?_, ?_, ?_, ?_, fun u2 s => applyUi_custom_scheme u2 s⟩
  · rw [hh]; simp [hb]
  · rw [hs]; simp [hb]
  · rw [hs]; simp [hbase]
  · rw [hs]; simp [hbf]
  · rw [hs]; simp [ht]

/-- Witness for C8: the background-only document loads with the decoded
background and the random scheme's base color. -/
theorem partial_scheme_override_witness :
    (ProcessSettings schemeZero (some docOnlyBackground)).has_custom_scheme = true ∧
    (ProcessSettings schemeZero (some docOnlyBackground)).custom_scheme.bg =
      FromHex "#10203040".toList ∧
    (ProcessSettings schemeZero (some docOnlyBackground)).custom_scheme.base =
      schemeZero.base := by
  have h := partial_scheme_override schemeZero docOnlyBackground uiOnlyBackground
    rfl (by decide) rfl rfl rfl
  exact ⟨h.1, h.2.1, h.2.2.1⟩

/-- C10: the load path stores any `ui.menuItemSize` integer, zero included,
without validation; `ComputeDefaultMenuItemCount` is the `u32` division
`560 / menu_item_size`, well-defined only for a non-zero argument (its
division-by-zero case is undefined behavior, modelled as `none`), and a
document with `menuItemSize = 0` reaches that case. -/
theorem menuItemSize_unvalidated (scheme : ColorScheme) (doc : Doc)
    (u : UiSection) (k : Nat) (hu : doc.ui = some u) (hk : u.menuItemSize = some k) :
    (ProcessSettings scheme (some doc)).menu_item_size = k ∧
    (k ≠ 0 → ComputeDefaultMenuItemCount k = some (DefaultMenuHeight / k)) ∧
    ComputeDefaultMenuItemCount 0 = none ∧
    (ProcessSettings scheme (some docZeroMenuItemSize)).menu_item_size = 0 := by
  refine ⟨?_, fun h => by simp [ComputeDefaultMenuItemCount, h], rfl, ?_⟩
  · rw [ProcessSettings_menu_item_size, hu]
    simp [hk]
  · rw [ProcessSettings_menu_item_size]
    rfl

/-- Witness for C10: the zero-size document loads `menu_item_size = 0` and
the item-count division is undefined there. -/
theorem menuItemSize_unvalidated_witness :
    (ProcessSettings schemeZero (some docZeroMenuItemSize)).menu_item_size = 0 ∧
    ComputeDefaultMenuItemCount 0 = none := by
  have h := menuItemSize_unvalidated schemeZero docZeroMenuItemSize _ 0 rfl rfl
  exact ⟨h.1, h.2.2.1⟩

/-- C1: the claimed save-then-load round-trip fails on a fully customized,
already-normalized settings value: because `Save` writes
`decryptBufferMaxSize` under `export` while the load path reads it from
`installs`, every other field survives but `decrypt_buffer_max_size` resets
to the 16 MiB default, so the reloaded value differs from the original. -/
theorem save_load_roundtrip_fails :
    ProcessSettings schemeZero (some (Save exampleSettings)) =
      { exampleSettings with decrypt_buffer_max_size := 16 * 1024 * 1024 } ∧
    exampleSettings.decrypt_buffer_max_size = 8 * 1024 * 1024 ∧
    ProcessSettings schemeZero (some (Save exampleSettings)) ≠ exampleSettings := by
  refine ⟨by decide, by decide, by decide⟩

end Goldleaf
